import Mathlib

/-!
Verification of the BookEasy appointment-booking core against its
specification.  The JavaScript source (Mongoose models `Provider` and
`Booking`, the payment and booking Express routes) is shallowly embedded:

* JS `Date` values are milliseconds since the Unix epoch (`Int`); the model
  identifies local time with UTC, as no timezone is stored per booking.
* `HH:MM` time-of-day strings are minutes since midnight (`Nat`); string
  parsing via `new Date("2000-01-01T" + t)` followed by numeric comparison
  is order- and arithmetic-faithful under this encoding.
* JS exceptions are `Except` errors; `RangeError` thrown by the
  internationalisation API is `JsError.rangeError`.
* The Mongoose collection of bookings is a `List Booking`; `findOne`
  is `List.find?`, a successful `save` of an existing document replaces it
  by id, and the `pre-save` hook runs before every persist.
-/

namespace BookEasy

abbrev Millis := Int

def msPerMinute : Int := 60000

def msPerHour : Int := 3600000

def msPerDay : Int := 86400000

/-- A JavaScript runtime error.  The only kind the embedded code can raise is
`RangeError`, thrown by `Intl` option validation. -/
inductive JsError where
  | rangeError (msg : String)
deriving DecidableEq, Repr

/-- Day-of-week index of an epoch-milliseconds instant, 0 = Sunday.
The Unix epoch (1970-01-01) was a Thursday, index 4. -/
def dayOfWeekIndex (ms : Millis) : Int :=
  (Int.fdiv ms msPerDay + 4) % 7

def weekdayLongNames : List String :=
  ["Sunday", "Monday", "Tuesday", "Wednesday", "Thursday", "Friday", "Saturday"]

def weekdayShortNames : List String :=
  ["Sun", "Mon", "Tue", "Wed", "Thu", "Fri", "Sat"]

def weekdayNarrowNames : List String :=
  ["S", "M", "T", "W", "T", "F", "S"]

/-- The legal values of the `weekday` option of
`Date.prototype.toLocaleDateString` per ECMA-402 (`GetOption` for the
`weekday` field of `InitializeDateTimeFormat`). -/
def ecmaWeekdayValues : List String := ["narrow", "short", "long"]

/-- Modelled from ECMA-402: `date.toLocaleDateString("en-US", \x7b weekday:
opt \x7d)`.  `GetOption` throws a `RangeError` when `opt` is not one of
`narrow`, `short`, `long`; otherwise the en-US weekday name in the requested
width is produced. -/
def toLocaleDateStringWeekday (opt : String) (ms : Millis) : Except JsError String :=
  if opt ∈ ecmaWeekdayValues then
    let idx := (dayOfWeekIndex ms).toNat
    if opt = "narrow" then .ok (weekdayNarrowNames.getD idx "")
    else if opt = "short" then .ok (weekdayShortNames.getD idx "")
    else .ok (weekdayLongNames.getD idx "")
  else
    .error (.rangeError ("Value " ++ opt ++ " out of range for options property weekday"))

/-- Equality of `toDateString` of two JS dates: the same calendar day. -/
def sameCalendarDay (a b : Millis) : Bool :=
  Int.fdiv a msPerDay == Int.fdiv b msPerDay

/-- One entry of `providerSchema.availability.workingDays`. -/
structure WorkingDay where
  day : String
  startTime : Nat
  endTime : Nat
  isAvailable : Bool
deriving DecidableEq, Repr

/-- One entry of `providerSchema.availability.blockedDates`. -/
structure BlockedDate where
  date : Millis
deriving DecidableEq, Repr

/-- One entry of `providerSchema.services`. -/
structure Service where
  name : String
  duration : Nat
  price : ℚ
  isActive : Bool
deriving DecidableEq, Repr

/-- The parts of the `Provider` document the booking core reads. -/
structure Provider where
  workingDays : List WorkingDay
  blockedDates : List BlockedDate
  services : List Service
deriving DecidableEq, Repr

/-- Embeds `providerSchema.methods.isAvailableAt(date, time)` from
`src/server/models/Provider.js`.  The day name is computed with
`toLocaleDateString("en-US", \x7b weekday: "lowercase" \x7d)`; a thrown
`RangeError` propagates to the caller. -/
def isAvailableAt (p : Provider) (date : Millis) (time : Nat) : Except JsError Bool :=
  match toLocaleDateStringWeekday "lowercase" date with
  | .error e => .error e
  | .ok dayName =>
    match p.workingDays.find? (fun d => d.day == dayName) with
    | none => .ok false
    | some workingDay =>
      if workingDay.isAvailable = false then .ok false
      else if p.blockedDates.any (fun blocked => sameCalendarDay blocked.date date) then .ok false
      else .ok (decide (workingDay.startTime ≤ time) && decide (time < workingDay.endTime))

/-- A generated time slot (`startTime`/`endTime` as `HH:MM`,
`isAvailable: true`). -/
structure Slot where
  startTime : Nat
  endTime : Nat
  isAvailable : Bool
deriving DecidableEq, Repr

/-- The slot-generation loop of `getAvailableSlots`: walk from `current` to
`endT` in 30-minute steps (`slotDuration = 30`), emitting a slot whenever its
end does not exceed `endT`. -/
def slotLoop (current endT : Nat) : List Slot :=
  if h : current < endT then
    (if current + 30 ≤ endT then [⟨current, current + 30, true⟩] else [])
      ++ slotLoop (current + 30) endT
  else []
termination_by endT - current
decreasing_by omega

/-- Embeds `providerSchema.methods.getAvailableSlots(date)` from
`src/server/models/Provider.js`.  Same day-name computation as
`isAvailableAt`, so the same `RangeError` propagates. -/
def getAvailableSlots (p : Provider) (date : Millis) : Except JsError (List Slot) :=
  match toLocaleDateStringWeekday "lowercase" date with
  | .error e => .error e
  | .ok dayName =>
    match p.workingDays.find? (fun d => d.day == dayName) with
    | none => .ok []
    | some workingDay =>
      if workingDay.isAvailable = false then .ok []
      else if p.blockedDates.any (fun blocked => sameCalendarDay blocked.date date) then .ok []
      else .ok (slotLoop workingDay.startTime workingDay.endTime)

/-- The `RangeError` every availability call raises: `weekday: "lowercase"`
is not a legal option value. -/
def lowercaseWeekdayError : JsError :=
  .rangeError "Value lowercase out of range for options property weekday"

/-! ### The Booking document (`src/server/models/Booking.js`) -/

/-- The `bookingSchema.status` enum. -/
inductive BookingStatus where
  | pending | confirmed | inProgress | completed | cancelled | noShow
deriving DecidableEq, Repr

/-- The `bookingSchema.payment.status` enum. -/
inductive PaymentStatus where
  | pending | succeeded | failed | cancelled
deriving DecidableEq, Repr

/-- Embeds `bookingSchema.payment`.  Amounts are exact rationals: the only
arithmetic the source performs on them (`* 0.5`) is exact in doubles. -/
structure Payment where
  stripePaymentIntentId : Option Nat
  amount : ℚ
  status : PaymentStatus
  paidAt : Option Millis
deriving DecidableEq, Repr

/-- Embeds `bookingSchema.cancellation`. -/
structure Cancellation where
  cancelledBy : String
  cancelledAt : Millis
  reason : Option String
  refundAmount : ℚ
  refundStatus : String
deriving DecidableEq, Repr

/-- The parts of the `Booking` document the booking core reads and writes.
`customer` and `provider` are opaque ids; `appointmentDate` is the stored
`Date`; `startTime`/`endTime` are minutes since midnight. -/
structure Booking where
  id : Nat
  customer : Nat
  provider : Nat
  appointmentDate : Millis
  startTime : Nat
  endTime : Nat
  status : BookingStatus
  payment : Payment
  cancellation : Option Cancellation
  providerNotes : Option String
deriving DecidableEq, Repr

/-- The `appointmentDateTime` virtual: take the calendar day of
`appointmentDate` and set the wall-clock time to `startTime`
(`date.setHours(hours, minutes, 0, 0)`). -/
def appointmentDateTime (b : Booking) : Millis :=
  Int.fdiv b.appointmentDate msPerDay * msPerDay + (b.startTime : Int) * msPerMinute

/-- The quotient `(appointmentTime - now) / (1000 * 60 * 60)` as an exact rational. -/
def hoursUntilAppointment (b : Booking) (now : Millis) : ℚ :=
  ((appointmentDateTime b - now : Int) : ℚ) / (1000 * 60 * 60)

/-- Embeds `bookingSchema.methods.canBeCancelled`: more than 2 hours before the
appointment and status `confirmed`. -/
def canBeCancelled (b : Booking) (now : Millis) : Bool :=
  decide (hoursUntilAppointment b now > 2) && decide (b.status = .confirmed)

/-- Embeds `bookingSchema.methods.canBeRescheduled`: more than 4 hours before the
appointment and status `confirmed`. -/
def canBeRescheduled (b : Booking) (now : Millis) : Bool :=
  decide (hoursUntilAppointment b now > 4) && decide (b.status = .confirmed)

/-- Embeds `bookingSchema.methods.calculateRefund`: full refund beyond 24 hours,
half refund beyond 2 hours, otherwise nothing. -/
def calculateRefund (b : Booking) (now : Millis) : ℚ :=
  if hoursUntilAppointment b now > 24 then b.payment.amount
  else if hoursUntilAppointment b now > 2 then b.payment.amount * (1 / 2)
  else 0

/-! ### Persistence (`Booking.findOne` / `booking.save()` / the pre-save hook) -/

/-- Failures surfaced by the embedded route handlers.  `pastAppointmentDate`
is the `Error("Appointment date cannot be in the past")` raised by the
pre-save hook (the HTTP layer reports it as a 500); `serverError` wraps a JS
exception reaching the catch block of the route. -/
inductive RouteError where
  | validationFailed
  | notFound
  | accessDenied
  | paymentNotCompleted
  | serviceNotFound
  | providerUnavailable
  | slotTaken
  | cannotCancel
  | cannotReschedule
  | pastAppointmentDate
  | serverError (e : JsError)
deriving DecidableEq, Repr

/-- The bookings collection. -/
abbrev DB := List Booking

/-- Embeds `bookingSchema.pre("save")`: reject when `appointmentDate < new Date()`. -/
def preSaveValidate (b : Booking) (now : Millis) : Except RouteError Booking :=
  if b.appointmentDate < now then .error .pastAppointmentDate else .ok b

/-- Persisting an updated document: the stored record with the same id is
replaced. -/
def replaceById (db : DB) (b : Booking) : DB :=
  db.map (fun x => if x.id == b.id then b else x)

/-- Calling `booking.save()` on an existing document: pre-save hook, then replace. -/
def saveExisting (db : DB) (b : Booking) (now : Millis) : Except RouteError DB :=
  match preSaveValidate b now with
  | .error e => .error e
  | .ok b2 => .ok (replaceById db b2)

/-- Calling `booking.save()` on a new document: pre-save hook, then insert. -/
def insertNew (db : DB) (b : Booking) (now : Millis) : Except RouteError DB :=
  match preSaveValidate b now with
  | .error e => .error e
  | .ok b2 => .ok (db ++ [b2])

/-- The conflict query of the create and reschedule routes:
`Booking.findOne(\x7b provider, appointmentDate, startTime, status: \x7b $in:
["confirmed", "pending"] \x7d, _id: \x7b $ne: excludeId \x7d \x7d)` (the
`$ne` clause only in the reschedule route). -/
def findConflict (db : DB) (providerId : Nat) (date : Millis) (time : Nat)
    (excludeId : Option Nat) : Option Booking :=
  db.find? (fun b =>
    b.provider == providerId && b.appointmentDate == date && b.startTime == time &&
    (b.status == .confirmed || b.status == .pending) &&
    (match excludeId with
     | none => true
     | some e => b.id != e))

/-! ### Route handlers (the booking and payment Express routers) -/

/-- Route `POST /api/bookings`.  The caller is the authenticated customer; the
provider document has already been fetched.  On success the new booking and
the updated collection are returned.  The availability check precedes the
conflict query; a JS exception thrown inside it reaches the catch block of the
route and surfaces as a server error. -/
def createBooking (db : DB) (provider : Provider) (providerId customerId : Nat)
    (serviceName : String) (appointmentDate : Millis) (startTime : Nat)
    (now : Millis) (newId : Nat) : Except RouteError (DB × Booking) :=
  match provider.services.find? (fun s => s.name == serviceName && s.isActive) with
  | none => .error .serviceNotFound
  | some service =>
    match isAvailableAt provider appointmentDate startTime with
    | .error e => .error (.serverError e)
    | .ok available =>
      if available = false then .error .providerUnavailable
      else
        match findConflict db providerId appointmentDate startTime none with
        | some _ => .error .slotTaken
        | none =>
          let booking : Booking :=
            { id := newId
              customer := customerId
              provider := providerId
              appointmentDate := appointmentDate
              startTime := startTime
              endTime := (startTime + service.duration) % 1440
              status := .pending
              payment :=
                { stripePaymentIntentId := none
                  amount := service.price
                  status := .pending
                  paidAt := none }
              cancellation := none
              providerNotes := none }
          match insertNew db booking now with
          | .error e => .error e
          | .ok db2 => .ok (db2, booking)

/-- The `body("status").isIn([...])` validator of the status-update route. -/
def statusUpdateAllowed (s : BookingStatus) : Bool :=
  s == .confirmed || s == .inProgress || s == .completed ||
    s == .cancelled || s == .noShow

/-- Route `PUT /api/bookings/:id/status`.  The caller is the authenticated
provider (`pidCaller` is `req.provider._id`). -/
def updateStatusRoute (db : DB) (bookingId pidCaller : Nat)
    (newStatus : BookingStatus) (notes : Option String) (now : Millis) :
    Except RouteError DB :=
  if statusUpdateAllowed newStatus = false then .error .validationFailed
  else
    match db.find? (fun x => x.id == bookingId) with
    | none => .error .notFound
    | some booking =>
      if booking.provider != pidCaller then .error .accessDenied
      else
        saveExisting db
          { booking with
            status := newStatus
            providerNotes :=
              match notes with
              | some n => some n
              | none => booking.providerNotes }
          now

/-- Route `PUT /api/bookings/:id/cancel`.  `uid` is the authenticated user;
`pidCaller` is `req.provider?._id` when the user has the provider role. -/
def cancelRoute (db : DB) (bookingId uid : Nat) (pidCaller : Option Nat)
    (reason : Option String) (now : Millis) : Except RouteError DB :=
  match db.find? (fun x => x.id == bookingId) with
  | none => .error .notFound
  | some booking =>
    let isCustomer := booking.customer == uid
    let isProvider :=
      match pidCaller with
      | some pid => booking.provider == pid
      | none => false
    if isCustomer = false && isProvider = false then .error .accessDenied
    else if canBeCancelled booking now = false then .error .cannotCancel
    else
      let b1 := { booking with status := BookingStatus.cancelled }
      let b2 :=
        { b1 with
          cancellation := some
            { cancelledBy := if isCustomer then "customer" else "provider"
              cancelledAt := now
              reason := reason
              refundAmount := calculateRefund b1 now
              refundStatus := "pending" } }
      saveExisting db b2 now

/-- Status of a payment intent as reported by the payment gateway. -/
inductive StripeIntentStatus where
  | succeeded | processing | requiresPaymentMethod | canceled
deriving DecidableEq, Repr

/-- The mutation both payment-confirmation paths apply to the booking:
`payment.status = "succeeded"`, `payment.paidAt = new Date()`,
`status = "confirmed"`. -/
def confirmBookingUpdate (b : Booking) (now : Millis) : Booking :=
  { b with
    payment := { b.payment with status := .succeeded, paidAt := some now }
    status := .confirmed }

/-- Route `POST /api/payments/confirm-payment`.  `stripeStatus` is the status
Stripe reports for the intent; `uid` is the authenticated customer. -/
def confirmPaymentRoute (stripeStatus : StripeIntentStatus) (db : DB)
    (paymentIntentId uid : Nat) (now : Millis) : Except RouteError DB :=
  if stripeStatus != .succeeded then .error .paymentNotCompleted
  else
    match db.find? (fun b => b.payment.stripePaymentIntentId == some paymentIntentId) with
    | none => .error .notFound
    | some booking =>
      if booking.customer != uid then .error .accessDenied
      else saveExisting db (confirmBookingUpdate booking now) now

/-- Embeds `handlePaymentSucceeded` (the `payment_intent.succeeded` webhook): only a
booking whose `payment.status` is `pending` is updated; every error is
caught and logged, leaving the collection unchanged. -/
def handlePaymentSucceeded (db : DB) (paymentIntentId : Nat) (now : Millis) : DB :=
  match db.find? (fun b => b.payment.stripePaymentIntentId == some paymentIntentId) with
  | none => db
  | some booking =>
    if booking.payment.status == .pending then
      match saveExisting db (confirmBookingUpdate booking now) now with
      | .ok db2 => db2
      | .error _ => db
    else db

/-! ### Concrete documents used to exercise the theorems.

Epoch milliseconds: day 100 after the epoch starts at 8640000000;
1970-01-05 (epoch millisecond 345600000) is a Monday. -/

/-- A confirmed booking at 10:00 on day 100 costing 100, used for the refund
tiers. -/
def refundExample : Booking :=
  { id := 1, customer := 5, provider := 2
    appointmentDate := 8640000000, startTime := 600, endTime := 660
    status := .confirmed
    payment := { stripePaymentIntentId := none, amount := 100, status := .pending, paidAt := none }
    cancellation := none, providerNotes := none }

/-- A confirmed booking at 03:00 on day 100, three hours after the midnight
used as call time. -/
def windowConfirmed : Booking :=
  { id := 2, customer := 5, provider := 2
    appointmentDate := 8640000000, startTime := 180, endTime := 240
    status := .confirmed
    payment := { stripePaymentIntentId := none, amount := 80, status := .pending, paidAt := none }
    cancellation := none, providerNotes := none }

/-- Like `windowConfirmed` but still `pending`. -/
def windowPending : Booking :=
  { windowConfirmed with id := 3, status := BookingStatus.pending }

/-- A booking whose payment already succeeded, to probe the
confirm-payment route. -/
def paidBooking : Booking :=
  { id := 4, customer := 5, provider := 2
    appointmentDate := 8640000000, startTime := 600, endTime := 660
    status := .confirmed
    payment :=
      { stripePaymentIntentId := some 11, amount := 60, status := .succeeded
        paidAt := some 8500000000 }
    cancellation := none, providerNotes := none }

/-- A booking with a payment intent still pending, to probe the webhook
handler. -/
def unpaidBooking : Booking :=
  { id := 5, customer := 6, provider := 2
    appointmentDate := 8640000000, startTime := 630, endTime := 690
    status := .pending
    payment :=
      { stripePaymentIntentId := some 12, amount := 60, status := .pending, paidAt := none }
    cancellation := none, providerNotes := none }

/-- A booking whose `appointmentDate` equals the probed call time
exactly. -/
def exactNowBooking : Booking :=
  { id := 6, customer := 5, provider := 2
    appointmentDate := 5000000, startTime := 90, endTime := 120
    status := .pending
    payment := { stripePaymentIntentId := none, amount := 30, status := .pending, paidAt := none }
    cancellation := none, providerNotes := none }

/-- A confirmed booking at 10:00 on day 100 with a payment intent; probed
at 00:30 of the same day, its `appointmentDate` (midnight) is already in the
past while the appointment itself is 9.5 hours away. -/
def sameDayConfirmed : Booking :=
  { id := 7, customer := 5, provider := 2
    appointmentDate := 8640000000, startTime := 600, endTime := 660
    status := .confirmed
    payment :=
      { stripePaymentIntentId := some 21, amount := 70, status := .pending, paidAt := none }
    cancellation := none, providerNotes := none }

/-- Like `sameDayConfirmed` but still `pending`, so the cancel window check
rejects it first. -/
def sameDayPending : Booking :=
  { sameDayConfirmed with id := 8, status := BookingStatus.pending }

/-- A cancelled booking occupying Monday 10:00, for the create retry
scenario. -/
def cancelledMonday : Booking :=
  { id := 9, customer := 6, provider := 2
    appointmentDate := 345600000, startTime := 600, endTime := 630
    status := .cancelled
    payment := { stripePaymentIntentId := none, amount := 40, status := .cancelled, paidAt := none }
    cancellation := none, providerNotes := none }

/-- A provider working Mondays 09:00-17:00 with one active 30-minute
service. -/
def mondayProvider : Provider :=
  { workingDays := [{ day := "monday", startTime := 540, endTime := 1020, isAvailable := true }]
    blockedDates := []
    services := [{ name := "cut", duration := 30, price := 40, isActive := true }] }

/-- A provider with no working-day template at all. -/
def emptyTemplateProvider : Provider :=
  { workingDays := [], blockedDates := [], services := [] }

/-- A provider whose Monday template is marked unavailable. -/
def unavailableMondayProvider : Provider :=
  { workingDays := [{ day := "monday", startTime := 540, endTime := 1020, isAvailable := false }]
    blockedDates := []
    services := [] }

/-- A provider working Mondays but with 1970-01-05 blocked. -/
def blockedMondayProvider : Provider :=
  { workingDays := [{ day := "monday", startTime := 540, endTime := 1020, isAvailable := true }]
    blockedDates := [{ date := 345600000 }]
    services := [] }

/-! ### Theorems -/

theorem toLocaleDateStringWeekday_lowercase (ms : Millis) :
    toLocaleDateStringWeekday "lowercase" ms = .error lowercaseWeekdayError := rfl

/-- Claim C1: for every provider, date and time, `isAvailableAt` and
`getAvailableSlots` raise a `RangeError` and never return a value, because
both begin by computing the weekday name with the illegal option value
`lowercase` (legal values are narrow, short, long); no availability logic
ever runs, so nothing can pass the availability check. -/
theorem availability_always_throws (p : Provider) (date : Millis) (time : Nat) :
    isAvailableAt p date time = .error lowercaseWeekdayError ∧
    getAvailableSlots p date = .error lowercaseWeekdayError := by
  constructor <;> rfl

/-- The hours-until-appointment comparison performed in rationals is the
corresponding strict comparison of the millisecond difference. -/
theorem hoursUntil_gt_iff (b : Booking) (now : Millis) (c : ℚ) (m : Int)
    (hm : (m : ℚ) = c * (1000 * 60 * 60)) :
    hoursUntilAppointment b now > c ↔ appointmentDateTime b - now > m := by
  rw [gt_iff_lt, gt_iff_lt]
  unfold hoursUntilAppointment
  rw [lt_div_iff₀ (by norm_num : (0 : ℚ) < 1000 * 60 * 60), ← hm]
  exact Int.cast_lt

/-- Claim C3: `calculateRefund` returns the full `payment.amount` strictly
beyond 24 hours before the appointment, half of it in the half-open band
(2h, 24h], and 0 at or below 2 hours; the tiers are exhaustive, so the value
jumps at both boundaries rather than interpolating. -/
theorem calculateRefund_tiers (b : Booking) (now : Millis) :
    (appointmentDateTime b - now > 24 * msPerHour →
      calculateRefund b now = b.payment.amount) ∧
    (appointmentDateTime b - now > 2 * msPerHour ∧
        appointmentDateTime b - now ≤ 24 * msPerHour →
      calculateRefund b now = b.payment.amount * (1 / 2)) ∧
    (appointmentDateTime b - now ≤ 2 * msPerHour →
      calculateRefund b now = 0) := by
  have h24 := hoursUntil_gt_iff b now 24 (24 * msPerHour) (by norm_num [msPerHour])
  have h2 := hoursUntil_gt_iff b now 2 (2 * msPerHour) (by norm_num [msPerHour])
  refine ⟨fun h => ?_, fun h => ?_, fun h => ?_⟩
  · unfold calculateRefund
    rw [if_pos (h24.mpr h)]
  · unfold calculateRefund
    rw [if_neg (fun hc => absurd (h24.mp hc) (not_lt.mpr h.2)), if_pos (h2.mpr h.1)]
  · unfold calculateRefund
    have hle : appointmentDateTime b - now ≤ 24 * msPerHour :=
      le_trans h (by norm_num [msPerHour])
    rw [if_neg (fun hc => absurd (h24.mp hc) (not_lt.mpr hle)),
      if_neg (fun hc => absurd (h2.mp hc) (not_lt.mpr h))]

/-- Witness for C3: with a 100-priced booking at 10:00 of day 100, the
refund is 100 at 25 hours out, 50 at 10 hours out and at the exact 24-hour
boundary, 0 at 1 hour out and at the exact 2-hour boundary. -/
theorem calculateRefund_tiers_witness :
    calculateRefund refundExample 8586000000 = 100 ∧
    calculateRefund refundExample 8640000000 = 50 ∧
    calculateRefund refundExample 8589600000 = 50 ∧
    calculateRefund refundExample 8672400000 = 0 ∧
    calculateRefund refundExample 8668800000 = 0 := by
  refine ⟨?_, ?_, ?_, ?_, ?_⟩
  · rw [(calculateRefund_tiers refundExample 8586000000).1 (by decide)]
    norm_num [refundExample]
  · rw [(calculateRefund_tiers refundExample 8640000000).2.1 ⟨by decide, by decide⟩]
    norm_num [refundExample]
  · rw [(calculateRefund_tiers refundExample 8589600000).2.1 ⟨by decide, by decide⟩]
    norm_num [refundExample]
  · exact (calculateRefund_tiers refundExample 8672400000).2.2 (by decide)
  · exact (calculateRefund_tiers refundExample 8668800000).2.2 (by decide)

theorem canBeCancelled_iff (b : Booking) (now : Millis) :
    canBeCancelled b now = true ↔
      b.status = .confirmed ∧ appointmentDateTime b - now > 2 * msPerHour := by
  unfold canBeCancelled
  rw [Bool.and_eq_true, decide_eq_true_iff, decide_eq_true_iff,
    hoursUntil_gt_iff b now 2 (2 * msPerHour) (by norm_num [msPerHour])]
  exact and_comm

theorem canBeRescheduled_iff (b : Booking) (now : Millis) :
    canBeRescheduled b now = true ↔
      b.status = .confirmed ∧ appointmentDateTime b - now > 4 * msPerHour := by
  unfold canBeRescheduled
  rw [Bool.and_eq_true, decide_eq_true_iff, decide_eq_true_iff,
    hoursUntil_gt_iff b now 4 (4 * msPerHour) (by norm_num [msPerHour])]
  exact and_comm

theorem canBeCancelled_eq_true (b : Booking) (now : Millis)
    (h1 : b.status = .confirmed) (h2 : appointmentDateTime b - now > 2 * msPerHour) :
    canBeCancelled b now = true :=
  (canBeCancelled_iff b now).mpr ⟨h1, h2⟩

theorem canBeCancelled_eq_false (b : Booking) (now : Millis)
    (h : b.status ≠ .confirmed ∨ ¬ appointmentDateTime b - now > 2 * msPerHour) :
    canBeCancelled b now = false := by
  cases hc : canBeCancelled b now
  · rfl
  · rcases h with h | h
    · exact absurd ((canBeCancelled_iff b now).mp hc).1 h
    · exact absurd ((canBeCancelled_iff b now).mp hc).2 h

/-- Claim C4: `canBeCancelled` holds exactly for a confirmed booking
strictly more than 2 hours before the appointment, `canBeRescheduled`
exactly for a confirmed booking strictly more than 4 hours before it; a
pending booking can never be cancelled, and a confirmed booking 3 hours out
can be cancelled but not rescheduled. -/
theorem canBeCancelled_canBeRescheduled_iff (b : Booking) (now : Millis) :
    (canBeCancelled b now = true ↔
      b.status = .confirmed ∧ appointmentDateTime b - now > 2 * msPerHour) ∧
    (canBeRescheduled b now = true ↔
      b.status = .confirmed ∧ appointmentDateTime b - now > 4 * msPerHour) :=
  ⟨canBeCancelled_iff b now, canBeRescheduled_iff b now⟩

/-- Witness for C4: at midnight of day 100, the confirmed 03:00 booking can
be cancelled but not rescheduled, and the pending one can do neither. -/
theorem canBeCancelled_canBeRescheduled_iff_witness :
    canBeCancelled windowConfirmed 8640000000 = true ∧
    canBeRescheduled windowConfirmed 8640000000 = false ∧
    canBeCancelled windowPending 8640000000 = false := by
  refine ⟨?_, ?_, ?_⟩
  · exact (canBeCancelled_canBeRescheduled_iff windowConfirmed 8640000000).1.mpr
      ⟨rfl, by decide⟩
  · cases hr : canBeRescheduled windowConfirmed 8640000000
    · rfl
    · exact absurd
        (((canBeCancelled_canBeRescheduled_iff windowConfirmed 8640000000).2.mp hr).2)
        (by decide)
  · cases hc : canBeCancelled windowPending 8640000000
    · rfl
    · exact absurd
        (((canBeCancelled_canBeRescheduled_iff windowPending 8640000000).1.mp hc).1)
        (by decide)

/-- Claim C2 counterexample: the confirm-payment route does not require
`payment.status = pending`.  For a booking whose payment already succeeded,
the call neither fails nor leaves the booking unchanged: it overwrites
`paidAt`. -/
theorem confirmPayment_ignores_pending_requirement :
    paidBooking.payment.status ≠ .pending ∧
    confirmPaymentRoute .succeeded [paidBooking] 11 5 8600000000 =
      .ok [confirmBookingUpdate paidBooking 8600000000] ∧
    (confirmBookingUpdate paidBooking 8600000000).payment.paidAt ≠
      paidBooking.payment.paidAt := by
  refine ⟨by decide, by rfl, by decide⟩

/-- Claim C2 (amended): only the webhook handler `handlePaymentSucceeded`
requires `payment.status = pending`, and for a non-pending booking it makes
no change and raises no error.  The confirm-payment route transitions the
booking to `payment.status=succeeded`, `status=confirmed` with
`paidAt=now` whenever Stripe reports the intent succeeded and the caller is
the customer of the booking, regardless of the stored `payment.status`. -/
theorem confirmPayment_route_vs_webhook (db : DB) (pid uid : Nat) (now : Millis)
    (b : Booking)
    (hfind : db.find? (fun x => x.payment.stripePaymentIntentId == some pid) = some b) :
    (b.customer = uid → ¬ b.appointmentDate < now →
      confirmPaymentRoute .succeeded db pid uid now =
        .ok (replaceById db (confirmBookingUpdate b now))) ∧
    (b.payment.status ≠ .pending → handlePaymentSucceeded db pid now = db) ∧
    (b.payment.status = .pending → ¬ b.appointmentDate < now →
      handlePaymentSucceeded db pid now = replaceById db (confirmBookingUpdate b now)) := by
  refine ⟨fun hc hnp => ?_, fun hne => ?_, fun hp hnp => ?_⟩
  · simp [confirmPaymentRoute, hfind, hc, saveExisting, preSaveValidate,
      confirmBookingUpdate, hnp]
  · simp [handlePaymentSucceeded, hfind, hne]
  · simp [handlePaymentSucceeded, hfind, hp, saveExisting, preSaveValidate,
      confirmBookingUpdate, hnp]

/-- Witness for the amended C2: the route re-processes the already-paid
booking, and the webhook skips it but updates a pending one. -/
theorem confirmPayment_route_vs_webhook_witness :
    confirmPaymentRoute .succeeded [paidBooking] 11 5 8600000000 =
      .ok (replaceById [paidBooking] (confirmBookingUpdate paidBooking 8600000000)) ∧
    handlePaymentSucceeded [paidBooking] 11 8600000000 = [paidBooking] ∧
    handlePaymentSucceeded [unpaidBooking] 12 8600000000 =
      replaceById [unpaidBooking] (confirmBookingUpdate unpaidBooking 8600000000) := by
  refine ⟨?_, ?_, ?_⟩
  · exact (confirmPayment_route_vs_webhook [paidBooking] 11 5 8600000000 paidBooking
      (by rfl)).1 (by decide) (by decide)
  · exact (confirmPayment_route_vs_webhook [paidBooking] 11 5 8600000000 paidBooking
      (by rfl)).2.1 (by decide)
  · exact (confirmPayment_route_vs_webhook [unpaidBooking] 12 6 8600000000 unpaidBooking
      (by rfl)).2.2 (by decide) (by decide)

theorem findConflict_isSome_iff (db : DB) (pid : Nat) (date : Millis) (time : Nat)
    (ex : Option Nat) :
    (findConflict db pid date time ex).isSome = true ↔
      ∃ b ∈ db, b.provider = pid ∧ b.appointmentDate = date ∧ b.startTime = time ∧
        (b.status = .confirmed ∨ b.status = .pending) ∧
        ∀ e, ex = some e → b.id ≠ e := by
  unfold findConflict
  rw [List.find?_isSome]
  constructor
  · rintro ⟨b, hb, hpred⟩
    simp only [Bool.and_eq_true, Bool.or_eq_true, beq_iff_eq] at hpred
    refine ⟨b, hb, hpred.1.1.1.1, hpred.1.1.1.2, hpred.1.1.2, hpred.1.2, ?_⟩
    intro e he hbe
    rw [he] at hpred
    simp only [hbe, bne_self_eq_false] at hpred
    exact absurd hpred.2 (by decide)
  · rintro ⟨b, hb, h1, h2, h3, h4, h5⟩
    refine ⟨b, hb, ?_⟩
    simp only [Bool.and_eq_true, Bool.or_eq_true, beq_iff_eq]
    refine ⟨⟨⟨⟨h1, h2⟩, h3⟩, h4⟩, ?_⟩
    cases hex : ex with
    | none => rfl
    | some e =>
      simp only [bne_iff_ne, ne_eq]
      exact h5 e hex

/-- Claim C5: the conflict query of the create and reschedule routes indeed
matches exactly a same-provider, same-date, same-start-time booking in
status pending or confirmed, other than the optionally excluded id; but the
claimed consequences for the create flow are dead code: the availability
check throws its `RangeError` first, so a create retry at a slot whose only
occupant is cancelled still fails with a server error instead of
succeeding. -/
theorem findConflict_spec_but_create_always_throws :
    (∀ (db : DB) (pid : Nat) (date : Millis) (time : Nat) (ex : Option Nat),
      (findConflict db pid date time ex).isSome = true ↔
        ∃ b ∈ db, b.provider = pid ∧ b.appointmentDate = date ∧ b.startTime = time ∧
          (b.status = .confirmed ∨ b.status = .pending) ∧
          ∀ e, ex = some e → b.id ≠ e) ∧
    createBooking [cancelledMonday] mondayProvider 2 5 "cut" 345600000 600 345000000 10 =
      .error (.serverError lowercaseWeekdayError) :=
  ⟨findConflict_isSome_iff, by rfl⟩

theorem slotLoop_step (c c2 e : Nat) (h1 : c < e) (h2 : c2 ≤ e) (hc : c2 = c + 30) :
    slotLoop c e =
      { startTime := c, endTime := c + 30, isAvailable := true } :: slotLoop c2 e := by
  subst hc
  conv_lhs => rw [slotLoop]
  rw [dif_pos h1, if_pos h2]
  rfl

theorem slotLoop_stop (c e : Nat) (h : ¬ c < e) : slotLoop c e = [] := by
  conv_lhs => rw [slotLoop]
  rw [dif_neg h]

theorem slotLoop_monday :
    slotLoop 540 1020 =
      [{ startTime := 540, endTime := 570, isAvailable := true },
       { startTime := 570, endTime := 600, isAvailable := true },
       { startTime := 600, endTime := 630, isAvailable := true },
       { startTime := 630, endTime := 660, isAvailable := true },
       { startTime := 660, endTime := 690, isAvailable := true },
       { startTime := 690, endTime := 720, isAvailable := true },
       { startTime := 720, endTime := 750, isAvailable := true },
       { startTime := 750, endTime := 780, isAvailable := true },
       { startTime := 780, endTime := 810, isAvailable := true },
       { startTime := 810, endTime := 840, isAvailable := true },
       { startTime := 840, endTime := 870, isAvailable := true },
       { startTime := 870, endTime := 900, isAvailable := true },
       { startTime := 900, endTime := 930, isAvailable := true },
       { startTime := 930, endTime := 960, isAvailable := true },
       { startTime := 960, endTime := 990, isAvailable := true },
       { startTime := 990, endTime := 1020, isAvailable := true }] := by
  rw [slotLoop_step 540 570 1020 (by norm_num) (by norm_num) (by norm_num),
    slotLoop_step 570 600 1020 (by norm_num) (by norm_num) (by norm_num),
    slotLoop_step 600 630 1020 (by norm_num) (by norm_num) (by norm_num),
    slotLoop_step 630 660 1020 (by norm_num) (by norm_num) (by norm_num),
    slotLoop_step 660 690 1020 (by norm_num) (by norm_num) (by norm_num),
    slotLoop_step 690 720 1020 (by norm_num) (by norm_num) (by norm_num),
    slotLoop_step 720 750 1020 (by norm_num) (by norm_num) (by norm_num),
    slotLoop_step 750 780 1020 (by norm_num) (by norm_num) (by norm_num),
    slotLoop_step 780 810 1020 (by norm_num) (by norm_num) (by norm_num),
    slotLoop_step 810 840 1020 (by norm_num) (by norm_num) (by norm_num),
    slotLoop_step 840 870 1020 (by norm_num) (by norm_num) (by norm_num),
    slotLoop_step 870 900 1020 (by norm_num) (by norm_num) (by norm_num),
    slotLoop_step 900 930 1020 (by norm_num) (by norm_num) (by norm_num),
    slotLoop_step 930 960 1020 (by norm_num) (by norm_num) (by norm_num),
    slotLoop_step 960 990 1020 (by norm_num) (by norm_num) (by norm_num),
    slotLoop_step 990 1020 1020 (by norm_num) (by norm_num) (by norm_num),
    slotLoop_stop 1020 1020 (by norm_num)]

/-- Claim C6: on a Monday with a 09:00-17:00 available template the code
does not return 16 slots: `getAvailableSlots` throws the `lowercase`
`RangeError` before the slot walk, although the slot-generation loop itself
would tile the interval into exactly 16 contiguous half-hour slots from
09:00-09:30 to 16:30-17:00. -/
theorem getAvailableSlots_monday_throws :
    getAvailableSlots mondayProvider 345600000 = .error lowercaseWeekdayError ∧
    (slotLoop 540 1020).length = 16 ∧
    (slotLoop 540 1020).head? = some { startTime := 540, endTime := 570, isAvailable := true } ∧
    (slotLoop 540 1020).getLast? =
      some { startTime := 990, endTime := 1020, isAvailable := true } := by
  refine ⟨by rfl, ?_, ?_, ?_⟩ <;> rw [slotLoop_monday] <;> rfl

/-- Claim C7: on the code, a date with no matching template entry, an
unavailable template entry, or a blocked date does not produce the claimed
empty sequence: `getAvailableSlots` throws the `lowercase` `RangeError`
before any of those checks. -/
theorem getAvailableSlots_empty_cases_throw :
    getAvailableSlots emptyTemplateProvider 345600000 = .error lowercaseWeekdayError ∧
    getAvailableSlots unavailableMondayProvider 345600000 = .error lowercaseWeekdayError ∧
    getAvailableSlots blockedMondayProvider 345600000 = .error lowercaseWeekdayError := by
  refine ⟨by rfl, by rfl, by rfl⟩

/-- Claim C8: at the template `endTime` the code does not return the
claimed `false`: `isAvailableAt` throws the `lowercase` `RangeError` before
the half-open interval comparison. -/
theorem isAvailableAt_endTime_throws :
    isAvailableAt mondayProvider 345600000 1020 = .error lowercaseWeekdayError := by rfl

/-- Claim C9 counterexample: the pre-save hook rejects only strictly past
dates, so a new booking whose `appointmentDate` is not strictly in the
future — it equals the current time exactly — is persisted without
error. -/
theorem exactNow_booking_is_stored :
    ¬ exactNowBooking.appointmentDate > 5000000 ∧
    insertNew [] exactNowBooking 5000000 = .ok [exactNowBooking] := by
  refine ⟨by decide, by rfl⟩

/-- Claim C9 (amended): persisting a new booking fails with the past-date
error and stores nothing exactly when `appointmentDate` is strictly earlier
than the current time; a booking dated at or after the current time —
including exactly at it — is stored. -/
theorem insertNew_past_iff (db : DB) (b : Booking) (now : Millis) :
    (b.appointmentDate < now → insertNew db b now = .error .pastAppointmentDate) ∧
    (¬ b.appointmentDate < now → insertNew db b now = .ok (db ++ [b])) := by
  constructor
  · intro h
    unfold insertNew preSaveValidate
    rw [if_pos h]
  · intro h
    unfold insertNew preSaveValidate
    rw [if_neg h]

/-- Witness for the amended C9. -/
theorem insertNew_past_iff_witness :
    insertNew [] exactNowBooking 6000000 = .error .pastAppointmentDate ∧
    insertNew [] exactNowBooking 4000000 = .ok [exactNowBooking] :=
  ⟨(insertNew_past_iff [] exactNowBooking 6000000).1 (by decide),
   (insertNew_past_iff [] exactNowBooking 4000000).2 (by decide)⟩

theorem cancelRoute_not_cancellable (db : DB) (b : Booking) (bid uid : Nat)
    (now : Millis) (hfind : db.find? (fun x => x.id == bid) = some b)
    (hc : b.customer = uid) (hcc : canBeCancelled b now = false) :
    cancelRoute db bid uid none none now = .error .cannotCancel := by
  simp [cancelRoute, hfind, hc, hcc]

/-- Claim C10 counterexample: a pending booking whose `appointmentDate` is
already past is indeed immutable, but its cancel attempt fails with the
cancellation-window error, not with the claimed past-date error. -/
theorem cancel_past_pending_fails_with_other_error :
    sameDayPending.appointmentDate < 8641800000 ∧
    cancelRoute [sameDayPending] 8 5 none none 8641800000 = .error .cannotCancel ∧
    RouteError.cannotCancel ≠ RouteError.pastAppointmentDate := by
  refine ⟨by decide, ?_, by decide⟩
  exact cancelRoute_not_cancellable [sameDayPending] sameDayPending 8 5 8641800000
    (by rfl) (by rfl) (canBeCancelled_eq_false _ _ (Or.inl (by decide)))

/-- Claim C10 (amended): once `appointmentDate` is earlier than the current
time, every state-changing operation persists no change — status update and
payment confirmation fail with the past-date error of the pre-save hook;
cancel fails with the past-date error when the cancellation window check
passes, and with the cannot-cancel error otherwise. -/
theorem past_booking_operations_fail (db : DB) (b : Booking) (now : Millis)
    (uid pid iid : Nat) (newStatus : BookingStatus) (notes : Option String)
    (hpast : b.appointmentDate < now) :
    (db.find? (fun x => x.id == b.id) = some b → statusUpdateAllowed newStatus = true →
      b.provider = pid →
      updateStatusRoute db b.id pid newStatus notes now = .error .pastAppointmentDate) ∧
    (db.find? (fun x => x.payment.stripePaymentIntentId == some iid) = some b →
      b.customer = uid →
      confirmPaymentRoute .succeeded db iid uid now = .error .pastAppointmentDate) ∧
    (db.find? (fun x => x.id == b.id) = some b → b.customer = uid →
      canBeCancelled b now = true →
      cancelRoute db b.id uid none none now = .error .pastAppointmentDate) ∧
    (db.find? (fun x => x.id == b.id) = some b → b.customer = uid →
      canBeCancelled b now = false →
      cancelRoute db b.id uid none none now = .error .cannotCancel) := by
  refine ⟨fun hfind hok hp => ?_, fun hfind hc => ?_, fun hfind hc hcc => ?_,
    fun hfind hc hcc => ?_⟩
  · simp [updateStatusRoute, hfind, hok, hp, saveExisting, preSaveValidate, hpast]
  · simp [confirmPaymentRoute, hfind, hc, saveExisting, preSaveValidate,
      confirmBookingUpdate, hpast]
  · simp [cancelRoute, hfind, hc, hcc, saveExisting, preSaveValidate, hpast]
  · simp [cancelRoute, hfind, hc, hcc]

/-- Witness for the amended C10: same-day 00:30 probes of a 10:00 booking
whose stored `appointmentDate` (midnight) is already past. -/
theorem past_booking_operations_fail_witness :
    updateStatusRoute [sameDayConfirmed] 7 2 .completed none 8641800000 =
      .error .pastAppointmentDate ∧
    confirmPaymentRoute .succeeded [sameDayConfirmed] 21 5 8641800000 =
      .error .pastAppointmentDate ∧
    cancelRoute [sameDayConfirmed] 7 5 none none 8641800000 =
      .error .pastAppointmentDate ∧
    cancelRoute [sameDayPending] 8 5 none none 8641800000 = .error .cannotCancel := by
  have hconf := past_booking_operations_fail [sameDayConfirmed] sameDayConfirmed
    8641800000 5 2 21 .completed none (by decide)
  have hpend := past_booking_operations_fail [sameDayPending] sameDayPending
    8641800000 5 2 21 .completed none (by decide)
  refine ⟨hconf.1 (by rfl) (by rfl) (by rfl), hconf.2.1 (by rfl) (by rfl), ?_, ?_⟩
  · exact hconf.2.2.1 (by rfl) (by rfl)
      (canBeCancelled_eq_true _ _ (by rfl) (by decide))
  · exact hpend.2.2.2 (by rfl) (by rfl)
      (canBeCancelled_eq_false _ _ (Or.inl (by decide)))

end BookEasy
